import Mathlib

/-!
Verification development for the strct-agent repository.

The definitions below are a shallow embedding of the Go sources:
the wifi network-mode manager (package `wifi`: `apply`, `applyRouter`,
`applyExtender`, `teardown`, `validateConfig`, `refreshStatus`,
`writeHostapdConf`, `writeDnsmasqConf`, `writeWpaSupplicantConf`),
the agent bootstrap orchestrator (package `agent`: `ensureConnectivity`,
`runSetupWizard`, `New`) and the captive-portal setup server
(package `setup`: `StartCaptivePortal`).

External process execution (`executil.Runner`) and file writes are
modelled by an environment `Env` that assigns to each action either
success (`none`) or an error message (`some e`).  Every action a function
issues is recorded in a trace (`List Act`), in program order.
-/

namespace Strct

/-- One externally visible action of the manager: running a command
through the execution abstraction, or writing a generated file. -/
inductive Act where
  | run (name : String) (args : List String)
  | write (path : String) (content : String)
  deriving DecidableEq, Repr

/-- The environment decides the outcome of each action: `none` is
success, `some e` is failure with error message `e`. -/
def Env : Type := Act → Option String

/-- One statement of a Go provisioning sequence: `checked` statements
abort the sequence on failure, wrapping the error with the source's
`fmt.Errorf` message text `pfx`; `ignored` statements discard the error
(`//nolint:errcheck` in the source) and always continue. -/
inductive Step where
  | checked (pfx : String) (act : Act)
  | ignored (act : Act)
  deriving DecidableEq, Repr

def stepAct : Step → Act
  | .checked _ a => a
  | .ignored a => a

/-- Execute a list of steps in order: each step's action is recorded;
a failing `checked` step stops the sequence and returns the wrapped
error, exactly as an early `return fmt.Errorf(...)` does in the source. -/
def runSteps (env : Env) : List Step → List Act × Option String
  | [] => ([], none)
  | .checked pfx a :: rest =>
    match env a with
    | some e => ([a], some (pfx ++ e))
    | none =>
      let r := runSteps env rest
      (a :: r.1, r.2)
  | .ignored a :: rest =>
    let r := runSteps env rest
    (a :: r.1, r.2)

/-- All actions of a step list, in order. -/
def stepsActs (l : List Step) : List Act := l.map stepAct

/-- Network mode enumeration (`wifi.Mode`): off, router, extender. -/
inductive Mode where
  | off
  | router
  | extender
  deriving DecidableEq, Repr

/-- `wifi.RouterConfig`.  Field defaults are the Go zero values, which is
what a JSON decode leaves in unmentioned fields. -/
structure RouterConfig where
  ssid : String := ""
  password : String := ""
  band : String := ""
  channel : Int := 0
  maxClients : Int := 0
  subnetBase : String := ""
  dnsProvider : String := ""
  deriving DecidableEq, Repr

/-- `wifi.ExtenderConfig`, defaults are Go zero values. -/
structure ExtenderConfig where
  upstreamSSID : String := ""
  upstreamPassword : String := ""
  extenderSSID : String := ""
  extenderPassword : String := ""
  extenderBand : String := ""
  useSecondRadio : Bool := false
  deriving DecidableEq, Repr

/-- `wifi.WiFiConfig`: the persisted mode configuration. -/
structure WiFiConfig where
  mode : Mode := .off
  router : RouterConfig := {}
  extender : ExtenderConfig := {}
  deriving DecidableEq, Repr

/-- `wifi.Status`: the shared read-only snapshot.  Defaults are Go zero
values (the "empty" status). -/
structure Status where
  mode : Mode := .off
  active : Bool := false
  ssid : String := ""
  apInterface : String := ""
  subnetBase : String := ""
  gatewayIP : String := ""
  connectedIPs : Nat := 0
  upstreamSSID : String := ""
  error : String := ""
  deriving DecidableEq, Repr

def hostapdPath : String := "/etc/hostapd/hostapd.conf"

def dnsmasqPath : String := "/etc/dnsmasq.d/strct.conf"

def wpaPath : String := "/etc/wpa_supplicant/wpa_supplicant-wlan0.conf"

def ipForwardPath : String := "/proc/sys/net/ipv4/ip_forward"

/-- Content written by `writeHostapdConf` (including its local
`MaxClients == 0 → 20` default and the band → hw_mode mapping). -/
def hostapdConf (cfg : RouterConfig) (iface : String) : String :=
  let hwMode := if cfg.band = "2.4GHz" then "g" else "a"
  let maxClients := if cfg.maxClients = 0 then 20 else cfg.maxClients
  "# Generated by strct-agent\ninterface=" ++ iface ++
  "\ndriver=nl80211\nssid=" ++ cfg.ssid ++
  "\nhw_mode=" ++ hwMode ++
  "\nchannel=" ++ toString cfg.channel ++
  "\nieee80211n=1\nieee80211ac=1\nwmm_enabled=1\ncountry_code=US\nieee80211d=1\nwpa=2\nwpa_key_mgmt=WPA-PSK\nwpa_passphrase=" ++ cfg.password ++
  "\nrsn_pairwise=CCMP\nieee80211w=1\nignore_broadcast_ssid=0\nmax_num_sta=" ++ toString maxClients ++ "\n"

/-- The upstream DNS server pair selected by `writeDnsmasqConf`'s
provider lookup; an unknown provider falls back to the cloudflare pair. -/
def dnsPair (p : String) : String × String :=
  if p = "cloudflare" then ("1.1.1.1", "1.0.0.1")
  else if p = "google" then ("8.8.8.8", "8.8.4.4")
  else if p = "adguard" then ("94.140.14.14", "94.140.15.15")
  else if p = "quad9" then ("9.9.9.9", "149.112.112.112")
  else ("1.1.1.1", "1.0.0.1")

/-- Content written by `writeDnsmasqConf`. -/
def dnsmasqConf (subnetBase dnsProvider iface : String) : String :=
  let dns := dnsPair dnsProvider
  "# Generated by strct-agent\ninterface=" ++ iface ++
  "\nbind-interfaces\ndhcp-range=" ++ subnetBase ++ ".50," ++ subnetBase ++
  ".150,24h\ndhcp-option=3," ++ subnetBase ++
  ".1\ndhcp-option=6," ++ subnetBase ++
  ".1\nserver=" ++ dns.1 ++
  "\nserver=" ++ dns.2 ++
  "\nno-resolv\nlog-queries\n"

/-- Content written by `writeWpaSupplicantConf`. -/
def wpaConf (ssid password : String) : String :=
  "ctrl_interface=DIR=/var/run/wpa_supplicant GROUP=netdev\nupdate_config=1\ncountry=US\n\nnetwork=\x7b\n    ssid=\"" ++ ssid ++
  "\"\n    psk=\"" ++ password ++
  "\"\n    key_mgmt=WPA-PSK\n\x7d\n"

/-- The eight teardown actions of `teardown`, in source order.  Every
result is discarded in the source, so each is an `ignored` step. -/
def teardownSteps : List Step :=
  [.ignored (.run "systemctl" ["stop", "hostapd"]),
   .ignored (.run "systemctl" ["stop", "dnsmasq"]),
   .ignored (.run "killall" ["wpa_supplicant"]),
   .ignored (.run "killall" ["dhclient"]),
   .ignored (.run "iptables" ["-t", "nat", "-F"]),
   .ignored (.run "iptables" ["-F", "FORWARD"]),
   .ignored (.run "iw" ["dev", "wlan0_ap", "del"]),
   .ignored (.write ipForwardPath "0")]

def teardownActs : List Act := stepsActs teardownSteps

/-- The status `teardown` installs: `Status{Mode: ModeOff, Active: false}`
(a Go struct literal, so every other field is the zero value). -/
def offStatus : Status := { mode := .off, active := false }

/-- `teardown`: runs all teardown actions (failures swallowed) and
replaces the whole status with `offStatus`, regardless of the previous
status. -/
def teardown (_st : Status) : Status × List Act := (offStatus, teardownActs)

/-- The `applyRouter` provisioning sequence, one step per source
statement, with the source's error-wrap prefixes on checked steps. -/
def routerSteps (cfg : RouterConfig) : List Step :=
  [.checked "hostapd config: " (.write hostapdPath (hostapdConf cfg "wlan0")),
   .checked "start hostapd: " (.run "systemctl" ["restart", "hostapd"]),
   .ignored (.run "ip" ["addr", "flush", "dev", "wlan0"]),
   .checked "set wlan0 IP: " (.run "ip" ["addr", "add", cfg.subnetBase ++ ".1/24", "dev", "wlan0"]),
   .ignored (.run "ip" ["link", "set", "wlan0", "up"]),
   .checked "dnsmasq config: " (.write dnsmasqPath (dnsmasqConf cfg.subnetBase cfg.dnsProvider "wlan0")),
   .checked "start dnsmasq: " (.run "systemctl" ["restart", "dnsmasq"]),
   .ignored (.write ipForwardPath "1"),
   .ignored (.run "iptables" ["-t", "nat", "-F"]),
   .ignored (.run "iptables" ["-F", "FORWARD"]),
   .checked "iptables NAT: " (.run "iptables" ["-t", "nat", "-A", "POSTROUTING", "-o", "eth0", "-j", "MASQUERADE"]),
   .ignored (.run "iptables" ["-A", "FORWARD", "-i", "wlan0", "-o", "eth0", "-j", "ACCEPT"]),
   .ignored (.run "iptables" ["-A", "FORWARD", "-i", "eth0", "-o", "wlan0", "-m", "state", "--state", "RELATED,ESTABLISHED", "-j", "ACCEPT"])]

/-- The status `applyRouter` installs on success (a fresh struct
literal: the whole snapshot is replaced at once). -/
def routerStatus (cfg : RouterConfig) : Status :=
  { mode := .router
    active := true
    ssid := cfg.ssid
    apInterface := "wlan0"
    subnetBase := cfg.subnetBase
    gatewayIP := cfg.subnetBase ++ ".1" }

/-- `applyRouter`: run the router steps; on success replace the status
wholesale with `routerStatus`, on failure leave the status as it was
(only the error is returned to the caller). -/
def applyRouter (env : Env) (cfg : RouterConfig) (stIn : Status) :
    Status × List Act × Option String :=
  let r := runSteps env (routerSteps cfg)
  match r.2 with
  | none => (routerStatus cfg, r.1, none)
  | some e => (stIn, r.1, some e)

/-- The AP interface chosen by `applyExtender`: `wlan1` with a second
radio, the virtual `wlan0_ap` otherwise. -/
def extApIface (cfg : ExtenderConfig) : String :=
  if cfg.useSecondRadio then "wlan1" else "wlan0_ap"

/-- The local `RouterConfig` literal `applyExtender` builds for the AP
side (fixed subnet `192.168.200`, channel 0 for ACS, 20 max clients;
DNSProvider is left at its zero value). -/
def extRouterCfg (cfg : ExtenderConfig) : RouterConfig :=
  { ssid := cfg.extenderSSID
    password := cfg.extenderPassword
    band := cfg.extenderBand
    channel := 0
    maxClients := 20
    subnetBase := "192.168.200" }

/-- The `applyExtender` provisioning sequence, one step per source
statement.  The virtual-interface block is skipped with a second radio. -/
def extenderSteps (cfg : ExtenderConfig) : List Step :=
  (if cfg.useSecondRadio then []
   else
    [.ignored (.run "iw" ["dev", "wlan0_ap", "del"]),
     .checked "create virtual AP interface: " (.run "iw" ["dev", "wlan0", "interface", "add", "wlan0_ap", "type", "__ap"]),
     .ignored (.run "ip" ["link", "set", "wlan0_ap", "up"])]) ++
  [.checked "wpa_supplicant config: " (.write wpaPath (wpaConf cfg.upstreamSSID cfg.upstreamPassword)),
   .ignored (.run "killall" ["wpa_supplicant"]),
   .checked "start wpa_supplicant: " (.run "wpa_supplicant" ["-B", "-i", "wlan0", "-c", wpaPath]),
   .checked "dhclient wlan0: " (.run "dhclient" ["wlan0"]),
   .checked "hostapd config: " (.write hostapdPath (hostapdConf (extRouterCfg cfg) (extApIface cfg))),
   .checked "start hostapd: " (.run "systemctl" ["restart", "hostapd"]),
   .ignored (.run "ip" ["addr", "flush", "dev", extApIface cfg]),
   .checked "set AP interface IP: " (.run "ip" ["addr", "add", "192.168.200.1/24", "dev", extApIface cfg]),
   .checked "dnsmasq config: " (.write dnsmasqPath (dnsmasqConf "192.168.200" "cloudflare" (extApIface cfg))),
   .ignored (.run "systemctl" ["restart", "dnsmasq"]),
   .ignored (.write ipForwardPath "1"),
   .ignored (.run "iptables" ["-t", "nat", "-F"]),
   .ignored (.run "iptables" ["-t", "nat", "-A", "POSTROUTING", "-o", "wlan0", "-j", "MASQUERADE"]),
   .ignored (.run "iptables" ["-A", "FORWARD", "-i", extApIface cfg, "-o", "wlan0", "-j", "ACCEPT"]),
   .ignored (.run "iptables" ["-A", "FORWARD", "-i", "wlan0", "-o", extApIface cfg, "-m", "state", "--state", "RELATED,ESTABLISHED", "-j", "ACCEPT"])]

/-- The status `applyExtender` installs on success. -/
def extenderStatus (cfg : ExtenderConfig) : Status :=
  { mode := .extender
    active := true
    ssid := cfg.extenderSSID
    apInterface := extApIface cfg
    subnetBase := "192.168.200"
    gatewayIP := "192.168.200.1"
    upstreamSSID := cfg.upstreamSSID }

/-- `applyExtender`: run the extender steps; on success replace the
status wholesale with `extenderStatus`, on failure leave it unchanged. -/
def applyExtender (env : Env) (cfg : ExtenderConfig) (stIn : Status) :
    Status × List Act × Option String :=
  let r := runSteps env (extenderSteps cfg)
  match r.2 with
  | none => (extenderStatus cfg, r.1, none)
  | some e => (stIn, r.1, some e)

/-- `apply`: read the requested mode, always run the full teardown
first, then run the mode-specific provisioning (nothing for Off). -/
def applyFn (env : Env) (state : WiFiConfig) (st0 : Status) :
    Status × List Act × Option String :=
  let td := teardown st0
  match state.mode with
  | .router =>
    let r := applyRouter env state.router td.1
    (r.1, td.2 ++ r.2.1, r.2.2)
  | .extender =>
    let r := applyExtender env state.extender td.1
    (r.1, td.2 ++ r.2.1, r.2.2)
  | .off => (td.1, td.2, none)

/-- The in-place status write the `handleSetConfig` goroutine performs
when `apply` fails: `s.status.Error = err.Error()`. -/
def setErrorWrite (e : String) (st : Status) : Status := { st with error := e }

/-- A complete apply attempt as observed after the goroutine spawned by
`handleSetConfig` finishes: run `apply`; if it failed, record the error
in `Status.Error` (an in-place field write on whatever status `apply`
left behind). -/
def applyAttempt (env : Env) (state : WiFiConfig) (st0 : Status) :
    Status × List Act × Option String :=
  let r := applyFn env state st0
  match r.2.2 with
  | none => r
  | some e => (setErrorWrite e r.1, r.2.1, some e)

/-- `validateConfig`: synchronous validation, returning the source's
error message, or `none` when the config is accepted. -/
def validateConfig (cfg : WiFiConfig) : Option String :=
  match cfg.mode with
  | .router =>
    if cfg.router.ssid = "" then some "router.ssid is required"
    else if cfg.router.password.utf8ByteSize < 8 then
      some "router.password must be >= 8 characters"
    else none
  | .extender =>
    if cfg.extender.upstreamSSID = "" then some "extender.upstream_ssid is required"
    else if cfg.extender.extenderSSID = "" then some "extender.extender_ssid is required"
    else if cfg.extender.extenderPassword.utf8ByteSize < 8 then
      some "extender.extender_password must be >= 8 characters"
    else none
  | .off => none

/-- Synchronous outcome of `handleSetConfig`: HTTP 400 with the
validation error, or the immediate `{"status":"applying"}` response. -/
inductive SetConfigResult where
  | badRequest (msg : String)
  | applying
  deriving DecidableEq, Repr

/-- The synchronous part of `handleSetConfig`: decode (assumed done),
validate, reject with 400 or accept and schedule the apply. -/
def handleSetConfig (req : WiFiConfig) : SetConfigResult :=
  match validateConfig req with
  | some e => .badRequest e
  | none => .applying

/-- `handleSetConfig` together with the apply its acceptance schedules:
a rejected request changes nothing and issues no action; an accepted one
stores the config and runs the apply attempt. -/
def handleSetConfigFull (env : Env) (req : WiFiConfig) (st0 : Status) :
    SetConfigResult × Status × List Act :=
  match validateConfig req with
  | some e => (.badRequest e, st0, [])
  | none =>
    let r := applyAttempt env req st0
    (.applying, r.1, r.2.1)

/-- Fuel-bounded scanner for non-overlapping substring occurrences;
fuel is consumed one character per scan position. -/
def countOccFuel (sub : List Char) : Nat → List Char → Nat
  | 0, _ => 0
  | _, [] => 0
  | fuel + 1, c :: rest =>
    if sub.isPrefixOf (c :: rest) then
      1 + countOccFuel sub fuel (rest.drop (sub.length - 1))
    else
      countOccFuel sub fuel rest

/-- Go's `strings.Count(s, sub)`: the number of non-overlapping
instances of `sub` in `s`; for the empty substring, length + 1. -/
def countOcc (s sub : String) : Nat :=
  if sub = "" then s.length + 1
  else countOccFuel sub.data s.data.length s.data

/-- The in-place status write `refreshStatus` performs on a successful
`arp -a`: set `ConnectedIPs` and clear `Error`, all other fields kept. -/
def refreshWrite (n : Nat) (st : Status) : Status :=
  { st with connectedIPs := n, error := "" }

/-- `refreshStatus`: a no-op while the configured mode is Off; otherwise
run `arp -a` (`arpOut` is its result, `none` on command failure) and,
on success, count occurrences of the substring "wlan0" in the output. -/
def refreshStatus (stateMode : Mode) (arpOut : Option String) (st : Status) : Status :=
  if stateMode = Mode.off then st
  else
    match arpOut with
    | none => st
    | some out => refreshWrite (countOcc out "wlan0") st

/-- Split a character list on a separator character (structurally, so
concrete instances reduce inside the kernel). -/
def splitCharsOn (c : Char) : List Char → List (List Char)
  | [] => [[]]
  | x :: xs =>
    let r := splitCharsOn c xs
    if x = c then [] :: r
    else
      match r with
      | [] => [[x]]
      | h :: t => (x :: h) :: t

/-- Interface a neighbor-table line is scoped to: the last
space-separated token of an `arp -a` line ("... [ether] on IFACE"). -/
def lineIface (line : String) : String :=
  (((splitCharsOn ' ' line.data).map String.mk).getLast?).getD ""

/-- The count described by the spec: "counting neighbor-table entries
scoped to the currently active AP interface" — the number of non-empty
lines of the neighbor table whose interface field equals the active AP
interface.  Stated from the spec's words, for comparison with the count
`refreshStatus` actually computes. -/
def specScopedCount (out iface : String) : Nat :=
  (((splitCharsOn '\n' out.data).map String.mk).filter
    (fun l => !(l == "") && (lineIface l == iface))).length

/-- A status write is a wholesale replacement when its result does not
depend on the previous status value. -/
def WholesaleWrite (w : Status → Status) : Prop :=
  ∀ s1 s2 : Status, w s1 = w s2

/-- Boolean in-order subsequence test on action traces: true when the
first list occurs inside the second, in order (not necessarily
contiguously). -/
def isSubseq : List Act → List Act → Bool
  | [], _ => true
  | _ :: _, [] => false
  | x :: xs, y :: ys => if x = y then isSubseq xs ys else isSubseq (x :: xs) ys

/-- Error categories of the `errs` package. -/
inductive ErrKind where
  | other
  | io
  | network
  | invalid
  | unauthorized
  | notFound
  | system
  deriving DecidableEq, Repr

/-- An `errs.Error` value as built by `errs.E(op, kind, message)`. -/
structure AgentError where
  op : String
  kind : ErrKind
  msg : String
  deriving DecidableEq, Repr

/-- The error `ensureConnectivity` returns when the post-wizard probe
still reports no internet. -/
def noInternetErr : AgentError :=
  { op := "agent.ensureConnectivity"
    kind := .network
    msg := "no internet after setup wizard" }

/-- Termination behaviour of `runSetupWizard`'s blocking receive on the
done channel: `StartCaptivePortal` sends on `done` only after a
`wifiMgr.Connect` call succeeds (the failure branch merely logs and
returns from its goroutine without sending), so if every connect
attempt fails, nothing is ever sent and the receive blocks forever.
`none` models the receive never resolving. -/
def runSetupWizardDone (connectEventuallySucceeds : Bool) : Option Unit :=
  if connectEventuallySucceeds then some () else none

/-- `ensureConnectivity`: probe once (`probeBefore` is the result of the
initial `wifi.HasInternet()` call); if connected, return immediately
with no error.  Otherwise run the setup wizard — whose completion
requires a successful connect — and then probe exactly once more
(`probeAfter`); a failed re-probe yields the network-kind error.  The
outer `Option` is termination: `none` means the call never returns. -/
def ensureConnectivity (probeBefore probeAfter connectEventuallySucceeds : Bool) :
    Option (Option AgentError) :=
  if probeBefore then some none
  else
    match runSetupWizardDone connectEventuallySucceeds with
    | none => none
    | some _ =>
      if probeAfter then some none
      else some (some noInternetErr)

/-- The wrapping error `agent.New` builds with `errs.E(opNew, err)`:
an outer error tagged with the construction op, carrying the
connectivity error as its cause. -/
structure NewError where
  op : String
  cause : AgentError
  deriving DecidableEq, Repr

/-- `agent.New`: construction runs `ensureConnectivity` and fails with
a wrap of its error; `none` again models a call that never returns. -/
def agentNew (probeBefore probeAfter connectEventuallySucceeds : Bool) :
    Option (Except NewError Unit) :=
  match ensureConnectivity probeBefore probeAfter connectEventuallySucceeds with
  | none => none
  | some none => some (.ok ())
  | some (some e) => some (.error { op := "agent.New", cause := e })

/-- Observable events of one completed run of `runSetupWizard` (and of
the `StartCaptivePortal` call it spawns).  `portalCancel` is the
portal-shutdown event the spec describes; it is listed so that its
presence or absence in the wizard's trace can be stated. -/
inductive SetupEvent where
  | hotspotStart
  | portalStart
  | doneReceive
  | portalCancel
  | hotspotStop
  | settleSleep (seconds : Nat)
  deriving DecidableEq, Repr

/-- The events of a completed `runSetupWizard`, in source order: start
the hotspot (failure logged, non-fatal), spawn the captive portal,
block on the done channel, stop the hotspot, sleep 2 seconds.  The
source has no portal sub-context and never shuts the portal down. -/
def runSetupWizardTrace : List SetupEvent :=
  [.hotspotStart, .portalStart, .doneReceive, .hotspotStop, .settleSleep 2]

/-- Index of the first occurrence of an event, counting from `n`. -/
def firstIdxFrom (e : SetupEvent) : Nat → List SetupEvent → Option Nat
  | _, [] => none
  | n, x :: xs => if x = e then some n else firstIdxFrom e (n + 1) xs

/-- `a` strictly precedes `b` in `l`: both occur, and the first
occurrence of `a` is before the first occurrence of `b`. -/
def strictlyPrecedes (a b : SetupEvent) (l : List SetupEvent) : Bool :=
  match firstIdxFrom a 0 l, firstIdxFrom b 0 l with
  | some i, some j => Nat.blt i j
  | _, _ => false

/-- The environment in which every action succeeds (the development
stand-in executor, which no-ops privileged commands). -/
def envOK : Env := fun _ => none

/-- An environment in which restarting hostapd fails with "boom" and
everything else succeeds. -/
def envFailHostapd : Env := fun a =>
  match a with
  | .run "systemctl" ["restart", "hostapd"] => some "boom"
  | _ => none

/-- The router configuration of the spec's end-to-end example; the
remaining fields are the zero values a JSON decode leaves. -/
def c3cfg : RouterConfig :=
  { ssid := "Home5G", password := "supersecret1", subnetBase := "192.168.77", band := "5GHz" }

/-- A posted config requesting Router mode with `c3cfg`. -/
def c3req : WiFiConfig := { mode := .router, router := c3cfg }

/-- The four actions the spec's end-to-end example requires in order. -/
def c3orderedActs : List Act :=
  [Act.run "systemctl" ["restart", "hostapd"],
   Act.run "ip" ["addr", "add", "192.168.77.1/24", "dev", "wlan0"],
   Act.run "systemctl" ["restart", "dnsmasq"],
   Act.run "iptables" ["-t", "nat", "-A", "POSTROUTING", "-o", "eth0", "-j", "MASQUERADE"]]

/-- An extender configuration using the second radio, so the active AP
interface is `wlan1`. -/
def c9cfg : ExtenderConfig :=
  { upstreamSSID := "Upstream"
    upstreamPassword := "pw12345678"
    extenderSSID := "Ext"
    extenderPassword := "pw12345678"
    extenderBand := "5GHz"
    useSecondRadio := true }

/-- The status after a successful second-radio extender apply. -/
def c9status : Status := extenderStatus c9cfg

/-- A neighbor table with two entries, both scoped to `wlan1`. -/
def c9arp : String :=
  "? (192.168.200.50) at a1:b2:c3:d4:e5:f6 [ether] on wlan1\n? (192.168.200.51) at de:ad:be:ef:ca:fe [ether] on wlan1\n"

/-- When a step sequence completes without error, its trace is exactly
the full action list of the sequence, in order. -/
theorem runSteps_none_acts (env : Env) :
    ∀ steps : List Step, (runSteps env steps).2 = none →
      (runSteps env steps).1 = stepsActs steps := by
  intro steps
  induction steps with
  | nil => intro _; rfl
  | cons s rest ih =>
    cases s with
    | checked pfx a =>
      intro h2
      simp only [runSteps] at h2 ⊢
      cases henv : env a with
      | some e => rw [henv] at h2; simp at h2
      | none =>
        rw [henv] at h2
        simp only [stepsActs, List.map, stepAct]
        simp only [stepsActs] at ih
        simp only [] at h2
        simp [ih h2]
    | ignored a =>
      intro h2
      simp only [runSteps] at h2 ⊢
      simp only [stepsActs, List.map, stepAct]
      simp only [stepsActs] at ih
      simp [ih h2]

/-- C2: every apply first performs the full teardown — stop hostapd,
stop dnsmasq, kill wpa_supplicant and dhclient, flush the NAT and
FORWARD chains, delete the virtual AP interface, reset IP forwarding,
in source order — before any mode-specific provisioning action;
teardown from any previous status (including Off) installs
`{Mode: Off, Active: false}`; and `apply(Off)` performs teardown only,
ending with that status and no error. -/
theorem C2_teardown_first (env : Env) (req : WiFiConfig) (st0 : Status) :
    teardownActs =
      [Act.run "systemctl" ["stop", "hostapd"],
       Act.run "systemctl" ["stop", "dnsmasq"],
       Act.run "killall" ["wpa_supplicant"],
       Act.run "killall" ["dhclient"],
       Act.run "iptables" ["-t", "nat", "-F"],
       Act.run "iptables" ["-F", "FORWARD"],
       Act.run "iw" ["dev", "wlan0_ap", "del"],
       Act.write ipForwardPath "0"] ∧
    teardown st0 = (offStatus, teardownActs) ∧
    (∃ provisioning : List Act,
      (applyFn env req st0).2.1 = teardownActs ++ provisioning) ∧
    (req.mode = Mode.off → applyFn env req st0 = (offStatus, teardownActs, none)) := by
  refine ⟨rfl, rfl, ?_, ?_⟩
  · rcases req with ⟨mode, rcfg, ecfg⟩
    cases mode with
    | off => exact ⟨[], by simp [applyFn, teardown]⟩
    | router => exact ⟨(applyRouter env rcfg offStatus).2.1, rfl⟩
    | extender => exact ⟨(applyExtender env ecfg offStatus).2.1, rfl⟩
  · rcases req with ⟨mode, rcfg, ecfg⟩
    cases mode with
    | off => intro _; rfl
    | router => intro h; exact absurd h (by simp)
    | extender => intro h; exact absurd h (by simp)

/-- C2 witness: the theorem applied at the all-success environment, an
Off request, and the off status. -/
theorem C2_teardown_first_witness :
    applyFn envOK { mode := Mode.off } offStatus = (offStatus, teardownActs, none) :=
  (C2_teardown_first envOK { mode := Mode.off } offStatus).2.2.2 rfl

/-- C4 counterexample: with a radio whose connect always fails (and the
initial probe failing), `ensureConnectivity` never returns at all — the
wizard's done-channel receive blocks forever — so it does not return a
network-kind error after any timeout. -/
theorem C4_counterexample :
    ensureConnectivity false false false = none ∧
    ¬ ∃ e : AgentError,
        ensureConnectivity false false false = some (some e) ∧ e.kind = ErrKind.network := by
  refine ⟨rfl, ?_⟩
  rintro ⟨e, he, -⟩
  simp [ensureConnectivity, runSetupWizardDone] at he

/-- C4 amended: `ensureConnectivity` does not poll with a bounded
timeout; after the wizard it re-probes exactly once.  If the initial
probe succeeds it returns immediately; if the radio's connect always
fails, the wizard never completes and the call never returns; if the
wizard completes but the single re-probe still reports no internet, it
returns the network-kind error and agent construction fails with a
wrap of that error. -/
theorem C4_ensure_connectivity (probeAfter connect : Bool) :
    ensureConnectivity true probeAfter connect = some none ∧
    ensureConnectivity false probeAfter false = none ∧
    ensureConnectivity false true true = some none ∧
    ensureConnectivity false false true = some (some noInternetErr) ∧
    noInternetErr.kind = ErrKind.network ∧
    agentNew false false true =
      some (Except.error { op := "agent.New", cause := noInternetErr }) ∧
    agentNew false true true = some (Except.ok ()) :=
  ⟨rfl, rfl, rfl, rfl, rfl, rfl, rfl⟩

/-- C5 counterexample: the wizard's completion trace contains no
portal-cancel event at all — `StartCaptivePortal` has no cancellable
sub-context and is never shut down — so portal-cancel does not strictly
precede hotspot-stop. -/
theorem C5_counterexample :
    SetupEvent.portalCancel ∉ runSetupWizardTrace ∧
    strictlyPrecedes SetupEvent.portalCancel SetupEvent.hotspotStop runSetupWizardTrace
      = false := by
  decide

/-- C5 amended: in every completion of the bootstrap wizard, the
receive on the done channel strictly precedes stopping the hotspot, and
the wizard then sleeps 2 seconds for the radio to settle into client
mode; the captive portal is never cancelled — no portal-cancel event
occurs in the trace. -/
theorem C5_wizard_order :
    runSetupWizardTrace =
      [SetupEvent.hotspotStart, SetupEvent.portalStart, SetupEvent.doneReceive,
       SetupEvent.hotspotStop, SetupEvent.settleSleep 2] ∧
    strictlyPrecedes SetupEvent.doneReceive SetupEvent.hotspotStop runSetupWizardTrace
      = true ∧
    strictlyPrecedes SetupEvent.hotspotStop (SetupEvent.settleSleep 2) runSetupWizardTrace
      = true ∧
    SetupEvent.portalCancel ∉ runSetupWizardTrace := by
  decide

/-- C1 counterexample: an apply attempt targeting Router in which the
`systemctl restart hostapd` step fails completes with
`Status.Mode = Off` — the value the initial teardown installed — not
the targeted Router mode, even though the failing step's error is in
`Status.Error`. -/
theorem C1_counterexample :
    (applyAttempt envFailHostapd c3req offStatus).2.2 = some "start hostapd: boom" ∧
    (applyAttempt envFailHostapd c3req offStatus).1.mode ≠ Mode.router ∧
    (applyAttempt envFailHostapd c3req offStatus).1.mode = Mode.off ∧
    (applyAttempt envFailHostapd c3req offStatus).1.error = "start hostapd: boom" := by
  decide

/-- C1 amended: after an apply attempt completes, `Status.Mode` equals
the targeted mode exactly when every step succeeded (and `Status.Error`
is then empty); when a step fails, the remaining steps are aborted and
the failing step's error is recorded verbatim in `Status.Error`, but
`Status.Mode` is `Off` — the value installed by the initial teardown —
not the mode the attempt targeted. -/
theorem C1_apply_attempt_status (env : Env) (req : WiFiConfig) (st0 : Status) :
    ((applyAttempt env req st0).2.2 = none →
      (applyAttempt env req st0).1.mode = req.mode ∧
      (applyAttempt env req st0).1.error = "") ∧
    (∀ e : String, (applyAttempt env req st0).2.2 = some e →
      (applyAttempt env req st0).1.mode = Mode.off ∧
      (applyAttempt env req st0).1.error = e) := by
  rcases req with ⟨mode, rcfg, ecfg⟩
  cases mode with
  | off =>
    constructor
    · intro _; exact ⟨rfl, rfl⟩
    · intro e he
      simp [applyAttempt, applyFn, teardown] at he
  | router =>
    cases hr : (runSteps env (routerSteps rcfg)).2 with
    | none =>
      constructor
      · intro _
        simp [applyAttempt, applyFn, applyRouter, teardown, hr, routerStatus]
      · intro e he
        simp [applyAttempt, applyFn, applyRouter, teardown, hr] at he
    | some err =>
      constructor
      · intro hnone
        simp [applyAttempt, applyFn, applyRouter, teardown, hr] at hnone
      · intro e he
        simp [applyAttempt, applyFn, applyRouter, teardown, hr] at he
        simp [applyAttempt, applyFn, applyRouter, teardown, hr, setErrorWrite,
          offStatus, he]
  | extender =>
    cases hr : (runSteps env (extenderSteps ecfg)).2 with
    | none =>
      constructor
      · intro _
        simp [applyAttempt, applyFn, applyExtender, teardown, hr, extenderStatus]
      · intro e he
        simp [applyAttempt, applyFn, applyExtender, teardown, hr] at he
    | some err =>
      constructor
      · intro hnone
        simp [applyAttempt, applyFn, applyExtender, teardown, hr] at hnone
      · intro e he
        simp [applyAttempt, applyFn, applyExtender, teardown, hr] at he
        simp [applyAttempt, applyFn, applyExtender, teardown, hr, setErrorWrite,
          offStatus, he]

/-- C1 witness: the amended theorem applied at a successful router
attempt and at an attempt whose hostapd restart fails. -/
theorem C1_apply_attempt_status_witness :
    (applyAttempt envOK c3req offStatus).1.mode = Mode.router ∧
    (applyAttempt envFailHostapd c3req offStatus).1.mode = Mode.off ∧
    (applyAttempt envFailHostapd c3req offStatus).1.error = "start hostapd: boom" := by
  refine ⟨((C1_apply_attempt_status envOK c3req offStatus).1 (by decide)).1, ?_, ?_⟩
  · exact ((C1_apply_attempt_status envFailHostapd c3req offStatus).2
      "start hostapd: boom" (by decide)).1
  · exact ((C1_apply_attempt_status envFailHostapd c3req offStatus).2
      "start hostapd: boom" (by decide)).2

/-- C3: for the spec's example router configuration, any successfully
completed apply attempt ends with Status having Mode Router, Active
true, SSID "Home5G", SubnetBase "192.168.77" and GatewayIP
"192.168.77.1", and the recorded action trace contains, in order, the
hostapd restart, the gateway address assignment, the dnsmasq restart
and the NAT masquerade rule addition. -/
theorem C3_router_end_to_end (env : Env) (st0 : Status) :
    (applyAttempt env c3req st0).2.2 = none →
      (applyAttempt env c3req st0).1.mode = Mode.router ∧
      (applyAttempt env c3req st0).1.active = true ∧
      (applyAttempt env c3req st0).1.ssid = "Home5G" ∧
      (applyAttempt env c3req st0).1.subnetBase = "192.168.77" ∧
      (applyAttempt env c3req st0).1.gatewayIP = "192.168.77.1" ∧
      isSubseq c3orderedActs (applyAttempt env c3req st0).2.1 = true := by
  intro h
  cases hr : (runSteps env (routerSteps c3cfg)).2 with
  | some err =>
    simp [applyAttempt, applyFn, applyRouter, teardown, c3req, hr] at h
  | none =>
    have hacts := runSteps_none_acts env (routerSteps c3cfg) hr
    have hres : applyAttempt env c3req st0 =
        (routerStatus c3cfg, teardownActs ++ stepsActs (routerSteps c3cfg), none) := by
      simp [applyAttempt, applyFn, applyRouter, teardown, c3req, hr, hacts]
    rw [hres]
    decide

/-- C3 witness: the theorem applied at the all-success environment. -/
theorem C3_router_end_to_end_witness :
    (applyAttempt envOK c3req offStatus).1.ssid = "Home5G" ∧
    isSubseq c3orderedActs (applyAttempt envOK c3req offStatus).2.1 = true := by
  refine ⟨(C3_router_end_to_end envOK offStatus (by decide)).2.2.1, ?_⟩
  exact (C3_router_end_to_end envOK offStatus (by decide)).2.2.2.2.2

/-- C6 counterexample: neither the periodic refresh write nor the
failed-apply error write replaces the whole Status value — each result
depends on the previous status (here: two previous statuses differing
in SSID give different results), so they mutate fields in place. -/
theorem C6_counterexample :
    ¬ WholesaleWrite (refreshWrite 3) ∧ ¬ WholesaleWrite (setErrorWrite "boom") := by
  constructor
  · intro h
    have h2 := congrArg Status.ssid (h offStatus { offStatus with ssid := "x" })
    simp [refreshWrite, offStatus] at h2
    exact absurd h2 (by decide)
  · intro h
    have h2 := congrArg Status.ssid (h offStatus { offStatus with ssid := "x" })
    simp [setErrorWrite, offStatus] at h2
    exact absurd h2 (by decide)

/-- C6 amended: teardown and successful apply completions replace the
whole Status at once (the installed value is independent of the
previous one), but a failed apply records its error by writing only
`Status.Error` in place, and the periodic refresh writes only
`Status.ConnectedIPs` and `Status.Error` in place; those two writes
preserve the other fields and are not wholesale replacements. -/
theorem C6_status_writes (env : Env) (rcfg : RouterConfig) (ecfg : ExtenderConfig)
    (e : String) (n : Nat) :
    WholesaleWrite (fun st => (teardown st).1) ∧
    ((runSteps env (routerSteps rcfg)).2 = none →
      ∀ st : Status, (applyRouter env rcfg st).1 = routerStatus rcfg) ∧
    ((runSteps env (extenderSteps ecfg)).2 = none →
      ∀ st : Status, (applyExtender env ecfg st).1 = extenderStatus ecfg) ∧
    (∀ st : Status, (setErrorWrite e st).mode = st.mode ∧
      (setErrorWrite e st).ssid = st.ssid ∧ (setErrorWrite e st).error = e) ∧
    (∀ st : Status, (refreshWrite n st).mode = st.mode ∧
      (refreshWrite n st).ssid = st.ssid ∧
      (refreshWrite n st).connectedIPs = n ∧ (refreshWrite n st).error = "") ∧
    ¬ WholesaleWrite (setErrorWrite e) ∧
    ¬ WholesaleWrite (refreshWrite n) := by
  refine ⟨?_, ?_, ?_, ?_, ?_, ?_, ?_⟩
  · intro s1 s2; rfl
  · intro hr st; simp [applyRouter, hr]
  · intro hr st; simp [applyExtender, hr]
  · intro st; exact ⟨rfl, rfl, rfl⟩
  · intro st; exact ⟨rfl, rfl, rfl, rfl⟩
  · intro h
    have h2 := congrArg Status.ssid (h offStatus { offStatus with ssid := "x" })
    simp [setErrorWrite, offStatus] at h2
    exact absurd h2 (by decide)
  · intro h
    have h2 := congrArg Status.ssid (h offStatus { offStatus with ssid := "x" })
    simp [refreshWrite, offStatus] at h2
    exact absurd h2 (by decide)

/-- C6 witness: the amended theorem applied at the all-success
environment and the example router config. -/
theorem C6_status_writes_witness :
    (applyRouter envOK c3cfg offStatus).1 = routerStatus c3cfg ∧
    (teardown offStatus).1 = (teardown (routerStatus c3cfg)).1 := by
  constructor
  · exact (C6_status_writes envOK c3cfg {} "e" 0).2.1 (by decide) offStatus
  · exact (C6_status_writes envOK c3cfg {} "e" 0).1 offStatus (routerStatus c3cfg)

/-- A posted config is accepted (answered with "applying") exactly when
validation returns no error. -/
theorem handleSetConfig_applying_iff (req : WiFiConfig) :
    handleSetConfig req = SetConfigResult.applying ↔ validateConfig req = none := by
  unfold handleSetConfig
  cases h : validateConfig req <;> simp

/-- C7: validation is synchronous and precedes any scheduled apply — a
rejected request returns 400 with the validation error, leaves the
status untouched and issues no action; a Router config is accepted iff
its SSID is non-empty and its password is at least 8 bytes long; an
Extender config is accepted iff both SSIDs are non-empty and the
extender password is at least 8 bytes long; and the three example
configurations behave as the spec states. -/
theorem C7_validation (env : Env) (req : WiFiConfig) (st0 : Status) :
    (req.mode = Mode.router →
      (handleSetConfig req = SetConfigResult.applying ↔
        (req.router.ssid ≠ "" ∧ 8 ≤ req.router.password.utf8ByteSize))) ∧
    (req.mode = Mode.extender →
      (handleSetConfig req = SetConfigResult.applying ↔
        (req.extender.upstreamSSID ≠ "" ∧ req.extender.extenderSSID ≠ "" ∧
          8 ≤ req.extender.extenderPassword.utf8ByteSize))) ∧
    (∀ e : String, validateConfig req = some e →
      handleSetConfigFull env req st0 = (SetConfigResult.badRequest e, st0, [])) ∧
    handleSetConfig { mode := Mode.router, router := { ssid := "", password := "longenough1" } }
      = SetConfigResult.badRequest "router.ssid is required" ∧
    handleSetConfig { mode := Mode.router, router := { ssid := "x", password := "short" } }
      = SetConfigResult.badRequest "router.password must be >= 8 characters" ∧
    handleSetConfig { mode := Mode.router, router := { ssid := "Home", password := "longenough1" } }
      = SetConfigResult.applying := by
  refine ⟨?_, ?_, ?_, by decide, by decide, by decide⟩
  · intro hm
    rcases req with ⟨mode, rcfg, ecfg⟩
    simp only at hm
    subst hm
    rw [handleSetConfig_applying_iff]
    by_cases h1 : rcfg.ssid = "" <;>
      by_cases h2 : rcfg.password.utf8ByteSize < 8 <;>
        simp [validateConfig, h1, h2] <;> omega
  · intro hm
    rcases req with ⟨mode, rcfg, ecfg⟩
    simp only at hm
    subst hm
    rw [handleSetConfig_applying_iff]
    by_cases h1 : ecfg.upstreamSSID = "" <;>
      by_cases h2 : ecfg.extenderSSID = "" <;>
        by_cases h3 : ecfg.extenderPassword.utf8ByteSize < 8 <;>
          simp [validateConfig, h1, h2, h3] <;> omega
  · intro e hve
    simp [handleSetConfigFull, hve]

/-- C7 witness: the theorem applied at the accepted and the rejected
example configurations. -/
theorem C7_validation_witness :
    handleSetConfig
        { mode := Mode.router, router := { ssid := "Home", password := "longenough1" } }
      = SetConfigResult.applying ∧
    handleSetConfigFull envOK
        { mode := Mode.router, router := { ssid := "", password := "longenough1" } } offStatus
      = (SetConfigResult.badRequest "router.ssid is required", offStatus, []) := by
  constructor
  · exact ((C7_validation envOK
      { mode := Mode.router, router := { ssid := "Home", password := "longenough1" } }
      offStatus).1 rfl).mpr ⟨by decide, by decide⟩
  · exact (C7_validation envOK
      { mode := Mode.router, router := { ssid := "", password := "longenough1" } }
      offStatus).2.2.1 "router.ssid is required" (by decide)

/-- C8: the provider "adguard" selects the AdGuard upstream pair, any
provider outside the known set falls back to the Cloudflare pair, and
the rest of the generated dnsmasq content depends only on the subnet
base and interface (two providers selecting the same pair generate
identical content). -/
theorem C8_dnsmasq_providers (s i p q : String) :
    dnsPair "adguard" = ("94.140.14.14", "94.140.15.15") ∧
    (p ∉ ["cloudflare", "google", "adguard", "quad9"] →
      dnsPair p = ("1.1.1.1", "1.0.0.1")) ∧
    (dnsPair p = dnsPair q → dnsmasqConf s p i = dnsmasqConf s q i) := by
  refine ⟨rfl, ?_, ?_⟩
  · intro hp
    have h1 : p ≠ "cloudflare" := fun h => hp (by simp [h])
    have h2 : p ≠ "google" := fun h => hp (by simp [h])
    have h3 : p ≠ "adguard" := fun h => hp (by simp [h])
    have h4 : p ≠ "quad9" := fun h => hp (by simp [h])
    simp [dnsPair, h1, h2, h3, h4]
  · intro h
    simp [dnsmasqConf, h]

/-- C8 witness: the theorem applied at the unknown provider "opendns". -/
theorem C8_dnsmasq_providers_witness :
    dnsPair "opendns" = ("1.1.1.1", "1.0.0.1") ∧
    dnsmasqConf "10.0.0" "opendns" "wlan0" = dnsmasqConf "10.0.0" "cloudflare" "wlan0" := by
  constructor
  · exact (C8_dnsmasq_providers "10.0.0" "wlan0" "opendns" "cloudflare").2.1 (by decide)
  · exact (C8_dnsmasq_providers "10.0.0" "wlan0" "opendns" "cloudflare").2.2 (by decide)

/-- C9 counterexample: in second-radio extender mode the active AP
interface is `wlan1`; with a neighbor table holding two entries scoped
to `wlan1`, the refresh records 0 connected IPs — it counts the
substring "wlan0" in the whole output instead of entries scoped to the
active AP interface, which number 2. -/
theorem C9_counterexample :
    c9status.apInterface = "wlan1" ∧
    specScopedCount c9arp c9status.apInterface = 2 ∧
    (refreshStatus Mode.extender (some c9arp) c9status).connectedIPs = 0 ∧
    (refreshStatus Mode.extender (some c9arp) c9status).connectedIPs ≠
      specScopedCount c9arp c9status.apInterface := by
  decide

/-- C9 amended: the periodic refresh is a no-op (changing no Status
field) whenever the configured mode is Off, and also when the neighbor
command fails; otherwise it writes ConnectedIPs as the count of
occurrences of the fixed substring "wlan0" in the whole `arp -a`
output — a count independent of the previous status and hence of which
AP interface is active — and clears Error. -/
theorem C9_refresh (m : Mode) (out : String) (st st2 : Status) :
    refreshStatus Mode.off (some out) st = st ∧
    refreshStatus Mode.off none st = st ∧
    (m ≠ Mode.off → refreshStatus m none st = st) ∧
    (m ≠ Mode.off →
      refreshStatus m (some out) st = refreshWrite (countOcc out "wlan0") st) ∧
    (m ≠ Mode.off →
      (refreshStatus m (some out) st).connectedIPs =
        (refreshStatus m (some out) st2).connectedIPs) := by
  refine ⟨by simp [refreshStatus], by simp [refreshStatus], ?_, ?_, ?_⟩
  · intro hm; simp [refreshStatus, hm]
  · intro hm; simp [refreshStatus, hm]
  · intro hm; simp [refreshStatus, hm, refreshWrite]

/-- C9 witness: the amended theorem applied in router mode at the
example neighbor table. -/
theorem C9_refresh_witness :
    refreshStatus Mode.router (some c9arp) offStatus
      = refreshWrite (countOcc c9arp "wlan0") offStatus ∧
    refreshStatus Mode.router none offStatus = offStatus := by
  constructor
  · exact (C9_refresh Mode.router c9arp offStatus offStatus).2.2.2.1 (by decide)
  · exact (C9_refresh Mode.router c9arp offStatus offStatus).2.2.1 (by decide)

/-- C10: every successful extender apply installs the fixed subnet base
"192.168.200" and gateway "192.168.200.1" regardless of the config, and
writes the dnsmasq config generated with the "cloudflare" provider —
whose pair is (1.1.1.1, 1.0.0.1) — for the chosen AP interface. -/
theorem C10_extender_fixed_subnet (env : Env) (cfg : ExtenderConfig) (st0 : Status) :
    (applyExtender env cfg st0).2.2 = none →
      (applyExtender env cfg st0).1 = extenderStatus cfg ∧
      (applyExtender env cfg st0).1.subnetBase = "192.168.200" ∧
      (applyExtender env cfg st0).1.gatewayIP = "192.168.200.1" ∧
      Act.write dnsmasqPath (dnsmasqConf "192.168.200" "cloudflare" (extApIface cfg)) ∈
        (applyExtender env cfg st0).2.1 ∧
      dnsPair "cloudflare" = ("1.1.1.1", "1.0.0.1") := by
  intro h
  cases hr : (runSteps env (extenderSteps cfg)).2 with
  | some err => simp [applyExtender, hr] at h
  | none =>
    have hacts := runSteps_none_acts env (extenderSteps cfg) hr
    have hres : applyExtender env cfg st0 =
        (extenderStatus cfg, stepsActs (extenderSteps cfg), none) := by
      simp [applyExtender, hr, hacts]
    rw [hres]
    refine ⟨rfl, rfl, rfl, ?_, rfl⟩
    cases hc : cfg.useSecondRadio <;>
      simp [extenderSteps, stepsActs, stepAct, extApIface, hc]

/-- C10 witness: the theorem applied at the all-success environment and
the second-radio extender config. -/
theorem C10_extender_fixed_subnet_witness :
    (applyExtender envOK c9cfg offStatus).1.subnetBase = "192.168.200" ∧
    (applyExtender envOK c9cfg offStatus).1.gatewayIP = "192.168.200.1" := by
  refine ⟨(C10_extender_fixed_subnet envOK c9cfg offStatus (by decide)).2.1,
    (C10_extender_fixed_subnet envOK c9cfg offStatus (by decide)).2.2.1⟩

end Strct
